import Mathlib

/-!
Shallow embedding of scripts/process/regression_model.py (VisiumMS).

The script is a linear pipeline: it dispatches on a required --output
selector, loads and merges per-sample 10x count matrices, aligns an
externally annotated dataset against the merged raw matrix, partitions
samples into six named conditions, and trains one regression model per
condition, writing per-condition artifacts.

Filesystem and library effects are modelled as an explicit trace of
operations; errors (the ValueError on a bad selector and the three
assert statements) abort the run, returning the trace accumulated so
far.  The external cell2location library (filter_genes, RegressionModel
training, export_posterior) is modelled abstractly: gene selection is an
opaque function, and the posterior export carries a factor-name list
equal to the distinct cell-type labels of the training data, as the spec
describes for the run metadata.
-/

namespace VisiumMS

/-- Filesystem and library operations performed by the pipeline, in order. -/
inductive Eff where
  | readH5ad (path : String)
  | listDir (path : String)
  | read10x (path : String)
  | mkdir (path : String)
  | readExcel (path : String)
  | writeH5ad (path : String)
  | beginCond (cond : String)
  | filterGenesCall (cond : String)
  | trainCall (cond : String)
  | savePng (path : String)
  | saveModel (path : String)
  | writeCsv (path : String)
deriving DecidableEq, Repr

/-- Operations that create or modify a file (directory creation excluded). -/
def isFileWrite : Eff → Bool
  | .writeH5ad _ => true
  | .savePng _ => true
  | .saveModel _ => true
  | .writeCsv _ => true
  | _ => false

/-- Operations that modify the filesystem at all, directory creation included. -/
def isWriteOp : Eff → Bool
  | .mkdir _ => true
  | e => isFileWrite e

def fileWrites (t : List Eff) : List Eff := t.filter isFileWrite

def writeOps (t : List Eff) : List Eff := t.filter isWriteOp

def isTrainCall : Eff → Bool
  | .trainCall _ => true
  | _ => false

def isGeneFilterCall : Eff → Bool
  | .filterGenesCall _ => true
  | _ => false

def trainCalls (t : List Eff) : List Eff := t.filter isTrainCall

def geneFilterCalls (t : List Eff) : List Eff := t.filter isGeneFilterCall

/-- The condition names announced at the head of each loop iteration. -/
def condMarkers (t : List Eff) : List String :=
  t.filterMap (fun e => match e with | .beginCond c => some c | _ => none)

/-! Module-level constants of the script (lines 30-33 of the source). -/

def label_name : String := "cell_types"

def sample_id : String := "sample_id"

def recompute : Bool := true

def min_cells_per_type : Nat := 20

/-! Fixed relative paths of the script. -/

def currentFolder : String := "scripts/process"

def dataDir : String := currentFolder ++ "/../../data"

def metadataPath : String := dataDir ++ "/Metadata_all.xlsx"

/-- The per-profile path configuration selected by the --output flag. -/
structure ProfilePaths where
  annotatedPath : String
  rawInputDir : String
  matrixFile : String
  outputDir : String
  rawOutPath : String
deriving DecidableEq, Repr

def cellbenderPaths : ProfilePaths :=
  { annotatedPath := dataDir ++ "/prc/sc/annotated_cellbender_mod.h5ad"
  , rawInputDir := dataDir ++ "/prc/sc/cellbender"
  , matrixFile := "cell_bender_matrix_filtered.h5"
  , outputDir := dataDir ++ "/prc/sc/c2l_model/cellbender"
  , rawOutPath := dataDir ++ "/prc/sc/adata_raw_cellbender.h5ad" }

def cellrangerPaths : ProfilePaths :=
  { annotatedPath := dataDir ++ "/prc/sc/annotated_cellranger.h5ad"
  , rawInputDir := dataDir ++ "/raw/sc"
  , matrixFile := "filtered_feature_bc_matrix.h5"
  , outputDir := dataDir ++ "/prc/sc/c2l_model/cellranger"
  , rawOutPath := dataDir ++ "/prc/sc/adata_raw_cellranger.h5ad" }

/-! Data model. -/

/-- A per-sample raw subdirectory: its name as listed by os.listdir, the
cell barcodes of its matrix file, the gene names of its matrix file, and
the count value stored at a (cell barcode, gene) position. -/
structure RawSampleDir where
  name : String
  cells : List String
  genes : List String
  counts : String → String → Nat

/-- A cell row of the annotated reference dataset: its obs name (possibly
carrying a trailing lane suffix), its sample id and its cell-type label. -/
structure AnnCell where
  name : String
  sample : String
  cellType : String
deriving DecidableEq, Repr

/-- One row of the sample metadata spreadsheet. -/
structure MetaRow where
  sample_id : String
  condition : String
  lesion_type : String
deriving DecidableEq, Repr

/-- The two input profiles the selector chooses between. -/
structure ProfileInput where
  annotated : List AnnCell
  rawDir : List RawSampleDir

/-- The whole external world the script reads. `varmHasKey` states whether the
installed cell2location version stores the posterior means under the
varm key means_per_cluster_mu_fg; `preexisting` lists the file paths that
already exist on disk before the run. -/
structure Env where
  cellbender : ProfileInput
  cellranger : ProfileInput
  meta : List MetaRow
  varmHasKey : Bool
  preexisting : List String

/-- The external library surface the script delegates to: the
cell2location filter_genes call, modelled as an opaque selection of the
var names. -/
structure Lib where
  selectGenes : List String → List String

/-! Loading and merging. -/

/-- pandas Index.make_unique: a repeated name receives a suffix -k counting
previous occurrences (anndata var_names_make_unique, line 51/66). -/
def makeUniqueAux : List String → List String → List String
  | _, [] => []
  | seen, n :: rest =>
    let k := (seen.filter (fun y => y == n)).length
    let n' := if k = 0 then n else n ++ "-" ++ toString k
    n' :: makeUniqueAux (n :: seen) rest

def makeUnique (names : List String) : List String := makeUniqueAux [] names

/-- A loaded per-sample AnnData right before concatenation: gene names made
unique, obs names prefixed with the sample name (lines 50-53 / 65-68). -/
structure SampleMatrix where
  sampleName : String
  obs_names : List String
  var_names : List String
  counts : String → String → Nat

def loadSample (d : RawSampleDir) : SampleMatrix :=
  { sampleName := d.name
  , obs_names := d.cells.map (fun c => d.name ++ "_" ++ c)
  , var_names := makeUnique d.genes
  , counts := fun n g =>
      match d.cells.find? (fun c => (d.name ++ "_" ++ c) == n) with
      | some c => d.counts c g
      | none => 0 }

/-- The merged matrix: obs rows are (obs name, sample id) pairs, the sample
id column coming from the concat label/keys arguments; var names are the
outer-join union of the per-sample var names; entry is the count stored
at (sample id, obs name, var name). -/
structure Merged where
  obs : List (String × String)
  var_names : List String
  entry : String → String → String → Nat

/-- sc.concat(..., join="outer", label=sample_id, keys=...) (line 54/69):
rows are the concatenation of all samples, each tagged with its sample
name; the var axis is the union of the per-sample var names, in first
occurrence order; a row's entry at a feature its sample lacked is filled
with zero. -/
def scConcat (mats : List SampleMatrix) : Merged :=
  { obs := mats.flatMap (fun m => m.obs_names.map (fun n => (n, m.sampleName)))
  , var_names := (mats.flatMap (fun m => m.var_names)).dedup
  , entry := fun s n g =>
      match mats.find? (fun m => m.sampleName == s) with
      | some m => if m.var_names.contains g then m.counts n g else 0
      | none => 0 }

/-- sample.startswith a dot (line 47/62): the name's first character is a dot. -/
def isHidden (s : String) : Bool :=
  match s.toList with
  | [] => false
  | c :: _ => c == '.'

/-- The non-hidden entries of os.listdir (line 47/62). -/
def visibleSamples (dirs : List RawSampleDir) : List RawSampleDir :=
  dirs.filter (fun d => !(isHidden d.name))

/-- The merged raw matrix built by a profile branch. -/
def mergedRaw (pin : ProfileInput) : Merged :=
  scConcat ((visibleSamples pin.rawDir).map loadSample)

/-! Annotation alignment. -/

/-- re.sub applied to an obs name with pattern dash-digits-at-end (line 78):
strips one trailing group of a dash followed by one or more digits. -/
def stripLaneSuffix (s : String) : String :=
  let rev := s.toList.reverse
  let ds := rev.takeWhile Char.isDigit
  match rev.drop ds.length with
  | '-' :: rest => if ds.isEmpty then s else String.mk rest.reverse
  | _ => s

/-- The rewritten annotated obs names (line 78). -/
def rewrittenAnnNames (ann : List AnnCell) : List String :=
  ann.map (fun a => a.sample ++ "_" ++ stripLaneSuffix a.name)

/-- Boolean set subset test on identifier lists (line 87). -/
def subsetCheck (xs ys : List String) : Bool :=
  xs.all (fun x => ys.contains x)

/-- Boolean two-sided set equality test on identifier lists (lines 101-102). -/
def setEqL (xs ys : List String) : Bool :=
  xs.all (fun x => ys.contains x) && ys.all (fun y => xs.contains y)

/-! Condition partition. -/

/-- cond_dict (lines 91-98), as the insertion-ordered association list the
script iterates over. -/
def cond_dict (meta : List MetaRow) : List (String × List String) :=
  [ ("All", meta.map (fun r => r.sample_id))
  , ("MS", (meta.filter (fun r => r.condition == "MS")).map (fun r => r.sample_id))
  , ("Control", (meta.filter (fun r => r.condition == "Control")).map (fun r => r.sample_id))
  , ("CA", (meta.filter (fun r => r.lesion_type == "CA")).map (fun r => r.sample_id))
  , ("CI", (meta.filter (fun r => r.lesion_type == "CI")).map (fun r => r.sample_id))
  , ("A", (meta.filter (fun r => r.lesion_type == "A")).map (fun r => r.sample_id)) ]

/-! Per-condition loop. -/

/-- A cell of the combined matrix after the annotation transfer
(lines 105-106): rewritten obs name, sample id and cell-type label. -/
structure CCell where
  name : String
  sample : String
  cellType : String
deriving DecidableEq, Repr

/-- The combined matrix carried into the loop: the raw matrix reindexed to
the annotated obs order with the annotated obs columns copied over. -/
def transferAnnotation (ann : List AnnCell) : List CCell :=
  ann.map (fun a =>
    { name := a.sample ++ "_" ++ stripLaneSuffix a.name
    , sample := a.sample
    , cellType := a.cellType })

/-- The per-condition output directory (line 130). -/
def tmp_out (outDir cond : String) : String := outDir ++ "/" ++ cond ++ "_reg_model"

/-- The results marker file consulted by the skip check (line 134). -/
def markerPath (outDir cond : String) : String := tmp_out outDir cond ++ "/inf_aver.csv"

/-- The subset of the combined matrix whose sample id lies in the
condition's sample list (line 118). -/
def subsetByCondition (combined : List CCell) (samples : List String) : List CCell :=
  combined.filter (fun c => samples.contains c.sample)

/-- The value_counts entry of one cell-type label (line 123). -/
def cellTypeCount (cells : List CCell) (t : String) : Nat :=
  (cells.filter (fun c => c.cellType == t)).length

/-- labels_to_remove (line 125): the labels whose count is below
min_cells_per_type. -/
def labels_to_remove (cells : List CCell) : List String :=
  ((cells.map (fun c => c.cellType)).dedup).filter
    (fun t => cellTypeCount cells t < min_cells_per_type)

/-- Line 127: drop every cell whose label is listed in labels_to_remove. -/
def removeRareTypes (cells : List CCell) : List CCell :=
  cells.filter (fun c => !((labels_to_remove cells).contains c.cellType))

/-- The column-name stem of the exported posterior means. -/
def meansStem : String := "means_per_cluster_mu_fg_"

/-- Modelled from the spec: the factor-name list carried in the
posterior-augmented dataset's run metadata (uns mod factor_names) is the
list of distinct cell-type labels of the data the model was set up on.
The construction itself lives in the external cell2location library. -/
def factorNamesOf (cells : List CCell) : List String :=
  (cells.map (fun c => c.cellType)).dedup

/-- pandas column selection on a table: succeeds with the wanted columns
when every wanted name is present, raises a KeyError otherwise. -/
def selectColumns (avail wanted : List String) : Except String (List String) :=
  if wanted.all (fun w => avail.contains w) then .ok wanted
  else .error "KeyError: missing column"

/-- Everything the loop body reads besides the condition entry itself. -/
structure CondCtx where
  recomputeFlag : Bool
  varmHasKey : Bool
  preexisting : List String
  selectGenes : List String → List String
  outputDir : String
  combined : List CCell
  varNames : List String
  rawUnsMod : Option (List String)

/-- The observable result of one loop iteration. -/
structure CondResult where
  trace : List Eff
  outcome : Except String Unit
  skipped : Bool
  kept : List CCell
  infAverCols : Option (List String)

/-- One iteration of the per-condition loop (lines 115-186).

Steps, in source order: subset the combined matrix to the condition's
samples; drop rare cell types; create the per-condition directory; skip
when the recompute flag is off and the marker file already exists;
filter genes (external call, modelled as an effect plus an opaque
selection); set up and train the regression model; save the training
plot; export the posterior; save the model and the dataset; extract the
per-cell-type means, looking in varm first and falling back to var
selected by the factor names of adata_raw's uns mod entry; rename the
columns to the dataset's factor names and write inf_aver.csv. -/
def condBody (ctx : CondCtx) (condition : String) (samples : List String) : CondResult :=
  let adata0 := subsetByCondition ctx.combined samples
  let adata1 := removeRareTypes adata0
  let out := tmp_out ctx.outputDir condition
  let trace0 : List Eff := [.beginCond condition, .mkdir out]
  if !ctx.recomputeFlag && ctx.preexisting.contains (markerPath ctx.outputDir condition) then
    { trace := trace0, outcome := .ok (), skipped := true, kept := adata1, infAverCols := none }
  else
    let _selectedGenes := ctx.selectGenes ctx.varNames
    let trace1 := trace0 ++ [.filterGenesCall condition, .trainCall condition]
    let factorNames := factorNamesOf adata1
    let trace2 := trace1 ++ [.savePng (out ++ "/training_plot.png")]
    let meanCols := factorNames.map (fun f => meansStem ++ f)
    let trace3 := trace2 ++ [.saveModel (out ++ "/c2l_mod"), .writeH5ad (out ++ "/sc.h5ad")]
    let extracted : Except String (List String) :=
      if ctx.varmHasKey then
        selectColumns meanCols (factorNames.map (fun f => meansStem ++ f))
      else
        match ctx.rawUnsMod with
        | none => .error "KeyError: mod"
        | some rawFactors => selectColumns meanCols (rawFactors.map (fun f => meansStem ++ f))
    match extracted with
    | .error e =>
      { trace := trace3, outcome := .error e, skipped := false, kept := adata1
      , infAverCols := none }
    | .ok cols =>
      if cols.length = factorNames.length then
        { trace := trace3 ++ [.writeCsv (markerPath ctx.outputDir condition)]
        , outcome := .ok (), skipped := false, kept := adata1
        , infAverCols := some factorNames }
      else
        { trace := trace3, outcome := .error "ValueError: column length mismatch"
        , skipped := false, kept := adata1, infAverCols := none }

/-- The loop over cond_dict: iterations run in list order; an uncaught
exception in a body aborts the run, keeping the trace so far. -/
def runConditions (ctx : CondCtx) : List (String × List String) → List Eff × Except String Unit
  | [] => ([], .ok ())
  | (c, ss) :: rest =>
    let r := condBody ctx c ss
    match r.outcome with
    | .error e => (r.trace, .error e)
    | .ok _ => ((r.trace ++ (runConditions ctx rest).1), (runConditions ctx rest).2)

/-! The whole pipeline. -/

/-- The outcome of a run with its full effect trace. -/
structure RunResult where
  trace : List Eff
  outcome : Except String Unit

/-- Whether an outcome is an uncaught error. -/
def isErr : Except String Unit → Bool
  | .error _ => true
  | .ok _ => false

/-- The loop context the script builds: the recompute constant, the
environment's library behaviour, and no uns mod entry on adata_raw
(export_posterior only ever writes to the per-condition copy). -/
def mkCondCtx (env : Env) (lib : Lib) (outDir : String) (combined : List CCell)
    (varNames : List String) : CondCtx :=
  { recomputeFlag := recompute
  , varmHasKey := env.varmHasKey
  , preexisting := env.preexisting
  , selectGenes := lib.selectGenes
  , outputDir := outDir
  , combined := combined
  , varNames := varNames
  , rawUnsMod := none }

/-- The pipeline after the selector has resolved a profile (lines 43-186
minus the dispatch): load and merge, mkdir the output directory, rewrite
the annotated names, assert the subset condition, read the metadata
sheet, assert the two sample-set equalities, transfer the annotation,
write the combined raw dataset, then run the per-condition loop. -/
def runLoaded (paths : ProfilePaths) (pin : ProfileInput) (env : Env) (lib : Lib) : RunResult :=
  let visible := visibleSamples pin.rawDir
  let adata_raw := mergedRaw pin
  let loadTrace : List Eff :=
    .readH5ad paths.annotatedPath :: .listDir paths.rawInputDir ::
      visible.map (fun d => .read10x (paths.rawInputDir ++ "/" ++ d.name ++ "/" ++ paths.matrixFile))
  let trace1 := loadTrace ++ [.mkdir paths.outputDir]
  let annNames := rewrittenAnnNames pin.annotated
  let rawNames := adata_raw.obs.map Prod.fst
  if !(subsetCheck annNames rawNames) then
    ⟨trace1, .error "The annotated adata is not a subset of the raw adata"⟩
  else
    let trace2 := trace1 ++ [.readExcel metadataPath]
    let metaIds := env.meta.map (fun r => r.sample_id)
    let rawSampleIds := adata_raw.obs.map Prod.snd
    let annSampleIds := pin.annotated.map (fun a => a.sample)
    if !(setEqL metaIds rawSampleIds) then
      ⟨trace2, .error "Samples are missing from the raw adata"⟩
    else if !(setEqL metaIds annSampleIds) then
      ⟨trace2, .error "Samples are missing from the annotated adata"⟩
    else
      let combined := transferAnnotation pin.annotated
      let trace3 := trace2 ++ [.writeH5ad paths.rawOutPath]
      let ctx := mkCondCtx env lib paths.outputDir combined adata_raw.var_names
      let lp := runConditions ctx (cond_dict env.meta)
      ⟨trace3 ++ lp.1, lp.2⟩

/-- The profile data the selector picks (the else arm is never consulted
on an invalid selector, the pipeline aborts first). -/
def profileOf (output : String) (env : Env) : ProfileInput :=
  if output == "cellbender" then env.cellbender else env.cellranger

/-- The path configuration the selector picks. -/
def pathsOf (output : String) : ProfilePaths :=
  if output == "cellbender" then cellbenderPaths else cellrangerPaths

/-- The whole script (lines 36-186): dispatch on the --output value,
raising a ValueError before any filesystem operation on an unrecognized
value. -/
def runPipeline (output : String) (env : Env) (lib : Lib) : RunResult :=
  if output == "cellbender" then runLoaded cellbenderPaths env.cellbender env lib
  else if output == "cellranger" then runLoaded cellrangerPaths env.cellranger env lib
  else ⟨[], .error "output must be either 'cellbender' or 'cellranger'"⟩

/-! Helper lemmas. -/

lemma fileWrites_read10x_map {α : Type} (l : List α) (f : α → String) :
    (l.map (fun d => Eff.read10x (f d))).filter isFileWrite = [] := by
  induction l with
  | nil => rfl
  | cons a l ih => simp [List.filter_cons, isFileWrite, ih]

lemma writeOps_read10x_map {α : Type} (l : List α) (f : α → String) :
    (l.map (fun d => Eff.read10x (f d))).filter isWriteOp = [] := by
  induction l with
  | nil => rfl
  | cons a l ih => simp [List.filter_cons, isWriteOp, isFileWrite, ih]

lemma trainCalls_read10x_map {α : Type} (l : List α) (f : α → String) :
    (l.map (fun d => Eff.read10x (f d))).filter isTrainCall = [] := by
  induction l with
  | nil => rfl
  | cons a l ih => simp [List.filter_cons, isTrainCall, ih]

/-- Reaching one of the two sample-set assertions with a mismatched
metadata sample set aborts the partially loaded run before any training. -/
lemma runLoaded_meta_mismatch (paths : ProfilePaths) (pin : ProfileInput)
    (env : Env) (lib : Lib)
    (hmis : setEqL (env.meta.map (fun r => r.sample_id))
          ((mergedRaw pin).obs.map Prod.snd) = false
        ∨ setEqL (env.meta.map (fun r => r.sample_id))
          (pin.annotated.map (fun a => a.sample)) = false) :
    isErr (runLoaded paths pin env lib).outcome = true
    ∧ trainCalls (runLoaded paths pin env lib).trace = [] := by
  simp only [runLoaded]
  split
  · exact ⟨rfl, by
      simp [trainCalls, List.filter_append, List.filter_cons, isTrainCall,
        trainCalls_read10x_map]⟩
  · split
    · exact ⟨rfl, by
        simp [trainCalls, List.filter_append, List.filter_cons, isTrainCall,
          trainCalls_read10x_map]⟩
    · split
      · exact ⟨rfl, by
          simp [trainCalls, List.filter_append, List.filter_cons, isTrainCall,
            trainCalls_read10x_map]⟩
      · rcases hmis with hm | hm <;> simp_all

/-- Concrete environments and library used by the witnesses. -/
def idLib : Lib := ⟨fun g => g⟩

def envEmpty : Env :=
  { cellbender := { annotated := [], rawDir := [] }
  , cellranger := { annotated := [], rawDir := [] }
  , meta := []
  , varmHasKey := true
  , preexisting := [] }

/-- An environment whose cellbender annotated cell is absent from the raw
matrix: the rewritten name s1_AAACC is not among the raw names. -/
def envBadSubset : Env :=
  { cellbender := { annotated := [⟨"AAACC-1", "s1", "Oligo"⟩]
                  , rawDir := [⟨"s1", ["TTTGG"], ["g1"], fun _ _ => 1⟩] }
  , cellranger := { annotated := [], rawDir := [] }
  , meta := []
  , varmHasKey := true
  , preexisting := [] }

/-! Claim theorems. -/

/-- C1: for every value of the required --output selector other than
exactly cellbender or cellranger, the pipeline raises the ValueError
before performing any filesystem read or write: the run aborts with an
empty effect trace. -/
theorem invalid_selector_raises_before_fs (output : String) (env : Env) (lib : Lib)
    (h1 : output ≠ "cellbender") (h2 : output ≠ "cellranger") :
    runPipeline output env lib
      = ⟨[], .error "output must be either 'cellbender' or 'cellranger'"⟩ := by
  simp [runPipeline, h1, h2]

/-- Witness for C1 at the concrete selector value "filtered". -/
theorem invalid_selector_raises_before_fs_witness :
    runPipeline "filtered" envEmpty idLib
      = ⟨[], .error "output must be either 'cellbender' or 'cellranger'"⟩ :=
  invalid_selector_raises_before_fs "filtered" envEmpty idLib (by decide) (by decide)

/-- C3: if the set of rewritten annotated cell identifiers is not a subset
of the merged raw matrix's cell identifiers, the pipeline halts with the
not-a-subset assertion message, and its trace contains no file write. -/
theorem annotation_not_subset_halts (output : String) (env : Env) (lib : Lib)
    (hout : output = "cellbender" ∨ output = "cellranger")
    (hsub : subsetCheck (rewrittenAnnNames (profileOf output env).annotated)
        ((mergedRaw (profileOf output env)).obs.map Prod.fst) = false) :
    (runPipeline output env lib).outcome
        = .error "The annotated adata is not a subset of the raw adata"
    ∧ fileWrites (runPipeline output env lib).trace = [] := by
  rcases hout with h | h <;> subst h <;>
    simp only [profileOf, if_pos, if_neg, String.reduceBEq, Bool.false_eq_true,
      reduceIte] at hsub <;>
    simp [runPipeline, runLoaded, hsub, fileWrites, List.filter_append, List.filter_cons,
      isFileWrite, fileWrites_read10x_map]

/-- Witness for C3: a concrete environment whose annotated identifier is
missing from the raw matrix. -/
theorem annotation_not_subset_halts_witness :
    (runPipeline "cellbender" envBadSubset idLib).outcome
        = .error "The annotated adata is not a subset of the raw adata"
    ∧ fileWrites (runPipeline "cellbender" envBadSubset idLib).trace = [] :=
  annotation_not_subset_halts "cellbender" envBadSubset idLib (Or.inl rfl) (by decide)

/-- C9: a run that aborts at the annotation-subset assertion has performed
exactly one filesystem-modifying operation, the creation of the
per-profile output directory; no file was created or modified. -/
theorem mkdir_only_write_before_subset_assert (output : String) (env : Env) (lib : Lib)
    (hout : output = "cellbender" ∨ output = "cellranger")
    (hsub : subsetCheck (rewrittenAnnNames (profileOf output env).annotated)
        ((mergedRaw (profileOf output env)).obs.map Prod.fst) = false) :
    writeOps (runPipeline output env lib).trace = [Eff.mkdir (pathsOf output).outputDir]
    ∧ (runPipeline output env lib).outcome
        = .error "The annotated adata is not a subset of the raw adata" := by
  rcases hout with h | h <;> subst h <;>
    simp only [profileOf, if_pos, if_neg, String.reduceBEq, Bool.false_eq_true,
      reduceIte] at hsub <;>
    simp [runPipeline, runLoaded, pathsOf, hsub, writeOps, List.filter_append,
      List.filter_cons, isWriteOp, isFileWrite, writeOps_read10x_map]

/-- Witness for C9 at the same concrete failing environment shape. -/
theorem mkdir_only_write_before_subset_assert_witness :
    writeOps (runPipeline "cellbender" envBadSubset idLib).trace
        = [Eff.mkdir (pathsOf "cellbender").outputDir]
    ∧ (runPipeline "cellbender" envBadSubset idLib).outcome
        = .error "The annotated adata is not a subset of the raw adata" :=
  mkdir_only_write_before_subset_assert "cellbender" envBadSubset idLib (Or.inl rfl) (by decide)

/-- An environment aligned up to the subset assertion whose metadata
sample set disagrees with the raw sample set. -/
def envBadMeta : Env :=
  { cellbender := { annotated := [⟨"AAACC-1", "s1", "Oligo"⟩]
                  , rawDir := [⟨"s1", ["AAACC"], ["g1"], fun _ _ => 1⟩] }
  , cellranger := { annotated := [], rawDir := [] }
  , meta := [⟨"s2", "MS", "CA"⟩]
  , varmHasKey := true
  , preexisting := [] }

/-- C4: if the metadata sample-id set is not exactly equal (both
directions) to the raw matrix's sample-id set, or not exactly equal to
the annotated dataset's sample-id set, the run halts on an assertion and
its trace contains no training call. -/
theorem meta_sample_mismatch_halts_before_training (output : String) (env : Env) (lib : Lib)
    (hout : output = "cellbender" ∨ output = "cellranger")
    (hmis : setEqL (env.meta.map (fun r => r.sample_id))
          ((mergedRaw (profileOf output env)).obs.map Prod.snd) = false
        ∨ setEqL (env.meta.map (fun r => r.sample_id))
          ((profileOf output env).annotated.map (fun a => a.sample)) = false) :
    isErr (runPipeline output env lib).outcome = true
    ∧ trainCalls (runPipeline output env lib).trace = [] := by
  rcases hout with h | h <;> subst h <;>
    simp only [profileOf, String.reduceBEq, reduceIte] at hmis <;>
    simpa only [runPipeline, String.reduceBEq, reduceIte] using
      runLoaded_meta_mismatch _ _ env lib hmis

/-- Witness for C4: concrete metadata naming sample s2 while the raw and
annotated data carry sample s1. -/
theorem meta_sample_mismatch_halts_before_training_witness :
    isErr (runPipeline "cellbender" envBadMeta idLib).outcome = true
    ∧ trainCalls (runPipeline "cellbender" envBadMeta idLib).trace = [] :=
  meta_sample_mismatch_halts_before_training "cellbender" envBadMeta idLib
    (Or.inl rfl) (Or.inl (by decide))

/-- Two loaded sample matrices with disjoint obs names, used by the C2
witness. -/
def matA : SampleMatrix :=
  { sampleName := "s1", obs_names := ["s1_c1", "s1_c2"], var_names := ["g1", "g2"]
  , counts := fun _ _ => 2 }

def matB : SampleMatrix :=
  { sampleName := "s2", obs_names := ["s2_c1"], var_names := ["g2", "g3"]
  , counts := fun _ _ => 5 }

/-- C2: outer-join concatenation of per-sample matrices with pairwise
disjoint cell identifiers yields exactly the sum of the per-sample cell
counts, the union of the per-sample feature sets, and tags every cell
with the sample it came from. -/
theorem concat_outer_sum_union_tagged (mats : List SampleMatrix)
    (_hdisj : mats.Pairwise (fun a b => ∀ n ∈ a.obs_names, n ∉ b.obs_names)) :
    (scConcat mats).obs.length = (mats.map (fun m => m.obs_names.length)).sum
    ∧ (∀ g, g ∈ (scConcat mats).var_names ↔ ∃ m ∈ mats, g ∈ m.var_names)
    ∧ (∀ p ∈ (scConcat mats).obs, ∃ m ∈ mats, p.2 = m.sampleName ∧ p.1 ∈ m.obs_names)
    ∧ ((mats.map (fun m => m.sampleName)).Nodup →
        ∀ m ∈ mats, ∀ n g,
          (g ∈ m.var_names → (scConcat mats).entry m.sampleName n g = m.counts n g)
          ∧ (g ∉ m.var_names → (scConcat mats).entry m.sampleName n g = 0)) := by
  refine ⟨?_, ?_, ?_, ?_⟩
  · simp [scConcat, List.length_flatMap, Function.comp_def]
  · intro g
    simp [scConcat, List.mem_flatMap]
  · intro p hp
    simp only [scConcat, List.mem_flatMap, List.mem_map] at hp
    obtain ⟨m, hm, n, hn, rfl⟩ := hp
    exact ⟨m, hm, rfl, hn⟩
  · intro hnd m hm n g
    have hsome : (mats.find? (fun m' => m'.sampleName == m.sampleName)).isSome := by
      rw [List.find?_isSome]
      exact ⟨m, hm, by simp⟩
    obtain ⟨m₀, hfind⟩ := Option.isSome_iff_exists.mp hsome
    have hname : m₀.sampleName = m.sampleName := by
      have := List.find?_some hfind
      simpa using this
    have hmem₀ : m₀ ∈ mats := List.mem_of_find?_eq_some hfind
    have heq : m₀ = m := List.inj_on_of_nodup_map hnd hmem₀ hm hname
    subst heq
    constructor
    · intro hg
      simp [scConcat, hfind, hg]
    · intro hg
      simp [scConcat, hfind, hg]

/-- Witness for C2 on two concrete samples sharing the feature g2. -/
theorem concat_outer_sum_union_tagged_witness :
    (scConcat [matA, matB]).obs.length
        = ([matA, matB].map (fun m => m.obs_names.length)).sum
    ∧ (∀ g, g ∈ (scConcat [matA, matB]).var_names ↔ ∃ m ∈ [matA, matB], g ∈ m.var_names)
    ∧ (∀ p ∈ (scConcat [matA, matB]).obs,
        ∃ m ∈ [matA, matB], p.2 = m.sampleName ∧ p.1 ∈ m.obs_names)
    ∧ (([matA, matB].map (fun m => m.sampleName)).Nodup →
        ∀ m ∈ [matA, matB], ∀ n g,
          (g ∈ m.var_names → (scConcat [matA, matB]).entry m.sampleName n g = m.counts n g)
          ∧ (g ∉ m.var_names → (scConcat [matA, matB]).entry m.sampleName n g = 0)) :=
  concat_outer_sum_union_tagged [matA, matB] (by decide)

/-! C5: rare cell types. -/

/-- In every branch the body's retained dataset is the subset with the
rare labels removed. -/
lemma condBody_kept (ctx : CondCtx) (c : String) (ss : List String) :
    (condBody ctx c ss).kept = removeRareTypes (subsetByCondition ctx.combined ss) := by
  simp only [condBody]
  split
  · rfl
  · split
    · rfl
    · split
      · rfl
      · rfl

/-- The inf_aver columns, when produced, are the factor names of the
post-removal dataset. -/
lemma condBody_cols (ctx : CondCtx) (c : String) (ss : List String) :
    (condBody ctx c ss).infAverCols = none
    ∨ (condBody ctx c ss).infAverCols
        = some (factorNamesOf (removeRareTypes (subsetByCondition ctx.combined ss))) := by
  simp only [condBody]
  split
  · exact Or.inl rfl
  · split
    · exact Or.inl rfl
    · split
      · exact Or.inr rfl
      · exact Or.inl rfl

/-- A label counted below the threshold never survives the removal. -/
lemma rare_type_not_kept (cells : List CCell) (t : String)
    (h : cellTypeCount cells t < min_cells_per_type) :
    ∀ c ∈ removeRareTypes cells, c.cellType ≠ t := by
  intro c hc hct
  rw [removeRareTypes, List.mem_filter] at hc
  have h1 : c.cellType ∈ labels_to_remove cells := by
    rw [labels_to_remove, List.mem_filter]
    refine ⟨List.mem_dedup.mpr (List.mem_map.mpr ⟨c, hc.1, rfl⟩), ?_⟩
    simpa [hct] using h
  have h2 := hc.2
  simp at h2
  exact h2 h1

/-- A label counted below the threshold is absent from the factor names
of the post-removal dataset. -/
lemma rare_type_not_in_factors (cells : List CCell) (t : String)
    (h : cellTypeCount cells t < min_cells_per_type) :
    t ∉ factorNamesOf (removeRareTypes cells) := by
  intro hmem
  simp only [factorNamesOf, List.mem_dedup, List.mem_map] at hmem
  obtain ⟨c, hc, hct⟩ := hmem
  exact rare_type_not_kept cells t h c hc hct

/-- C5: within a condition subset, every cell-type label counted strictly
below 20 is removed from the dataset the body carries into gene filtering
and training, and is absent from the inf_aver column names. -/
theorem rare_cell_types_removed (ctx : CondCtx) (condition : String)
    (samples : List String) (t : String)
    (h : cellTypeCount (subsetByCondition ctx.combined samples) t < min_cells_per_type) :
    (∀ c ∈ (condBody ctx condition samples).kept, c.cellType ≠ t)
    ∧ t ∉ ((condBody ctx condition samples).infAverCols.getD []) := by
  constructor
  · rw [condBody_kept]
    exact rare_type_not_kept _ t h
  · rcases condBody_cols ctx condition samples with hc | hc <;> rw [hc]
    · simp
    · simpa using rare_type_not_in_factors _ t h

/-- A loop context holding a two-cell condition subset whose label Rare
has a single cell. -/
def ctxRare : CondCtx :=
  { recomputeFlag := true
  , varmHasKey := true
  , preexisting := []
  , selectGenes := fun g => g
  , outputDir := "out"
  , combined := [⟨"s1_c1", "s1", "Oligo"⟩, ⟨"s1_c2", "s1", "Rare"⟩]
  , varNames := ["g1"]
  , rawUnsMod := none }

/-- Witness for C5: the label Rare with one cell in the All subset. -/
theorem rare_cell_types_removed_witness :
    (∀ c ∈ (condBody ctxRare "All" ["s1"]).kept, c.cellType ≠ "Rare")
    ∧ "Rare" ∉ ((condBody ctxRare "All" ["s1"]).infAverCols.getD []) :=
  rare_cell_types_removed ctxRare "All" ["s1"] "Rare" (by decide)

/-! C6, C10, C7, C8: the loop body's trace. -/

/-- The three possible traces of one loop iteration: skipped, aborted at
the means extraction, or completed. -/
lemma condBody_trace_cases (ctx : CondCtx) (c : String) (ss : List String) :
    (condBody ctx c ss).trace = [Eff.beginCond c, Eff.mkdir (tmp_out ctx.outputDir c)]
    ∨ (condBody ctx c ss).trace
        = [Eff.beginCond c, Eff.mkdir (tmp_out ctx.outputDir c),
           Eff.filterGenesCall c, Eff.trainCall c,
           Eff.savePng (tmp_out ctx.outputDir c ++ "/training_plot.png"),
           Eff.saveModel (tmp_out ctx.outputDir c ++ "/c2l_mod"),
           Eff.writeH5ad (tmp_out ctx.outputDir c ++ "/sc.h5ad")]
    ∨ (condBody ctx c ss).trace
        = [Eff.beginCond c, Eff.mkdir (tmp_out ctx.outputDir c),
           Eff.filterGenesCall c, Eff.trainCall c,
           Eff.savePng (tmp_out ctx.outputDir c ++ "/training_plot.png"),
           Eff.saveModel (tmp_out ctx.outputDir c ++ "/c2l_mod"),
           Eff.writeH5ad (tmp_out ctx.outputDir c ++ "/sc.h5ad"),
           Eff.writeCsv (markerPath ctx.outputDir c)] := by
  simp only [condBody]
  split
  · exact Or.inl rfl
  · split
    · exact Or.inr (Or.inl rfl)
    · split
      · exact Or.inr (Or.inr rfl)
      · exact Or.inr (Or.inl rfl)

/-- Each loop iteration announces its condition exactly once. -/
lemma condMarkers_condBody (ctx : CondCtx) (c : String) (ss : List String) :
    condMarkers (condBody ctx c ss).trace = [c] := by
  rcases condBody_trace_cases ctx c ss with h | h | h <;> rw [h] <;> simp [condMarkers]

/-- C6: with the recompute flag off and the marker file already present,
the iteration is skipped whole: its trace is just the announcement and
the directory creation, with no gene filtering, no training call and no
file write. -/
theorem skip_when_marker_and_no_recompute (ctx : CondCtx) (c : String) (ss : List String)
    (hrec : ctx.recomputeFlag = false)
    (hmark : ctx.preexisting.contains (markerPath ctx.outputDir c) = true) :
    (condBody ctx c ss).skipped = true
    ∧ (condBody ctx c ss).trace = [Eff.beginCond c, Eff.mkdir (tmp_out ctx.outputDir c)]
    ∧ fileWrites (condBody ctx c ss).trace = []
    ∧ geneFilterCalls (condBody ctx c ss).trace = []
    ∧ trainCalls (condBody ctx c ss).trace = [] := by
  have hmark' : markerPath ctx.outputDir c ∈ ctx.preexisting := by simpa using hmark
  refine ⟨?_, ?_, ?_, ?_, ?_⟩ <;>
    simp [condBody, hrec, hmark', fileWrites, geneFilterCalls, trainCalls,
      isFileWrite, isGeneFilterCall, isTrainCall]

/-- A loop context with the recompute flag off and the marker for the MS
condition already on disk, for the C6 witness. -/
def ctxSkip : CondCtx :=
  { recomputeFlag := false
  , varmHasKey := true
  , preexisting := ["out/MS_reg_model/inf_aver.csv"]
  , selectGenes := fun g => g
  , outputDir := "out"
  , combined := [⟨"s1_c1", "s1", "Oligo"⟩]
  , varNames := ["g1"]
  , rawUnsMod := none }

/-- Witness for C6 on the concrete skipping context. -/
theorem skip_when_marker_and_no_recompute_witness :
    (condBody ctxSkip "MS" ["s1"]).skipped = true
    ∧ (condBody ctxSkip "MS" ["s1"]).trace
        = [Eff.beginCond "MS", Eff.mkdir (tmp_out "out" "MS")]
    ∧ fileWrites (condBody ctxSkip "MS" ["s1"]).trace = []
    ∧ geneFilterCalls (condBody ctxSkip "MS" ["s1"]).trace = []
    ∧ trainCalls (condBody ctxSkip "MS" ["s1"]).trace = [] :=
  skip_when_marker_and_no_recompute ctxSkip "MS" ["s1"] rfl (by decide)

/-- C10: whenever an iteration's trace contains the inf_aver.csv write,
its file writes are exactly the plot, the model directory, the dataset
and then the marker: the marker is written last. -/
theorem marker_written_last (ctx : CondCtx) (c : String) (ss : List String)
    (h : Eff.writeCsv (markerPath ctx.outputDir c) ∈ (condBody ctx c ss).trace) :
    fileWrites (condBody ctx c ss).trace
      = [Eff.savePng (tmp_out ctx.outputDir c ++ "/training_plot.png"),
         Eff.saveModel (tmp_out ctx.outputDir c ++ "/c2l_mod"),
         Eff.writeH5ad (tmp_out ctx.outputDir c ++ "/sc.h5ad"),
         Eff.writeCsv (markerPath ctx.outputDir c)] := by
  rcases condBody_trace_cases ctx c ss with ht | ht | ht <;> rw [ht] at h ⊢ <;>
    simp_all [fileWrites, isFileWrite]

/-- Witness for C10 on a completing context. -/
theorem marker_written_last_witness :
    fileWrites (condBody ctxRare "CA" ["s1"]).trace
      = [Eff.savePng (tmp_out "out" "CA" ++ "/training_plot.png"),
         Eff.saveModel (tmp_out "out" "CA" ++ "/c2l_mod"),
         Eff.writeH5ad (tmp_out "out" "CA" ++ "/sc.h5ad"),
         Eff.writeCsv (markerPath "out" "CA")] :=
  marker_written_last ctxRare "CA" ["s1"] (by decide)

/-- The loop announces the conditions of its list in list order: its
markers are an initial segment of the condition names, the whole list
when no iteration aborts. -/
lemma condMarkers_runConditions (ctx : CondCtx) (l : List (String × List String)) :
    ∃ n, condMarkers (runConditions ctx l).1 = (l.map Prod.fst).take n := by
  induction l with
  | nil => exact ⟨0, rfl⟩
  | cons p rest ih =>
    obtain ⟨n, hn⟩ := ih
    rcases p with ⟨c, ss⟩
    simp only [runConditions]
    rcases hout : (condBody ctx c ss).outcome with e | u
    · exact ⟨1, by simp [hout, condMarkers_condBody]⟩
    · refine ⟨n + 1, ?_⟩
      simp only [hout, condMarkers, List.filterMap_append, List.map_cons, List.take_succ_cons]
      rw [← condMarkers, ← condMarkers, condMarkers_condBody, hn]
      rfl

/-- A one-sample metadata table for the concrete full loop run. -/
def metaOne : List MetaRow := [⟨"s1", "MS", "CA"⟩]

/-- C7: the six condition subsets are iterated in the insertion order of
cond_dict, namely All, MS, Control, CA, CI, A: the dictionary lists them
in that order, every run announces an initial segment of that order, and
a completing run announces all six in that order. -/
theorem conditions_processed_in_insertion_order (meta : List MetaRow) (ctx : CondCtx) :
    (cond_dict meta).map Prod.fst = ["All", "MS", "Control", "CA", "CI", "A"]
    ∧ (∃ n, condMarkers (runConditions ctx (cond_dict meta)).1
        = (["All", "MS", "Control", "CA", "CI", "A"]).take n)
    ∧ condMarkers (runConditions ctxRare (cond_dict metaOne)).1
        = ["All", "MS", "Control", "CA", "CI", "A"] := by
  refine ⟨rfl, ?_, by decide⟩
  have h := condMarkers_runConditions ctx (cond_dict meta)
  simpa using h

/-- A loop context whose library stored the posterior means outside varm,
for the C8 evaluation. -/
def ctxNoVarm : CondCtx :=
  { recomputeFlag := true
  , varmHasKey := false
  , preexisting := []
  , selectGenes := fun g => g
  , outputDir := "out"
  , combined := [⟨"s1_c1", "s1", "Oligo"⟩]
  , varNames := ["g1"]
  , rawUnsMod := none }

/-- C8 evaluation (code bug): the pipeline always builds the loop context
with no uns mod entry for adata_raw, so when the posterior means are not
under the varm key the fallback lookup of factor names in adata_raw's
uns raises a KeyError; the iteration aborts without selecting by the
condition dataset's factor names and without writing inf_aver.csv. -/
theorem var_fallback_reads_raw_uns_and_fails :
    (∀ (env : Env) (lib : Lib) (outDir : String) (combined : List CCell)
      (varNames : List String),
      (mkCondCtx env lib outDir combined varNames).rawUnsMod = none)
    ∧ (condBody ctxNoVarm "All" ["s1"]).outcome = .error "KeyError: mod"
    ∧ (condBody ctxNoVarm "All" ["s1"]).infAverCols = none
    ∧ fileWrites (condBody ctxNoVarm "All" ["s1"]).trace
        = [Eff.savePng "out/All_reg_model/training_plot.png",
           Eff.saveModel "out/All_reg_model/c2l_mod",
           Eff.writeH5ad "out/All_reg_model/sc.h5ad"] :=
  ⟨fun _ _ _ _ _ => rfl, rfl, rfl, by decide⟩

end VisiumMS
